import Mathlib

/-!
Verification of the `FontFile` managed wrapper
(`src/wpf/src/Core/cpp/dwritewrapper/fontfile.cpp`).

The wrapper mediates between managed callers and a native DirectWrite
font-file object.  We shallowly embed each method as a Lean function over an
*environment* record that supplies the status code and output data of every
native call the method can make (the native layer is the oracle; the control
flow, branching, buffer arithmetic and cleanup order are translated from the
C++ source).  Each run also yields a *trace* of the native calls and
resource events it performed, so that claims about which operations run,
and how many times resources are released or freed, are statable.
-/

/-- `HRESULT`: a signed 32-bit native status code. -/
abbrev HRESULT := Int

/-- The Windows `FAILED` macro: an `HRESULT` denotes failure iff it is
negative. -/
def FAILED (hr : HRESULT) : Bool := hr < 0

/-- `S_OK`, the canonical success status. -/
def S_OK : HRESULT := 0

/-- `E_NOINTERFACE` (`0x80004002` as a signed 32-bit value): the status with
which `QueryInterface` reports that the capability is not present. -/
def E_NOINTERFACE : HRESULT := -2147467262

/-- `E_FAIL` (`0x80004005` as a signed 32-bit value): a generic failure
status, distinct from `E_NOINTERFACE`. -/
def E_FAIL : HRESULT := -2147467259

/-- `UINT_MAX` = `2^32 - 1`, the bound used by the invariant assertion in
`FontFile::GetUriPath` (line 144). -/
def UINT_MAX : Nat := 4294967295

/-- The native calls and resource events a `FontFile` method can perform, in
program order.  Pointer arguments are recorded where a claim depends on
them (`0` models a NULL pointer).  `releaseFontFileLoader` is in the
alphabet because the native API offers `Release` on the loader returned by
`GetLoader`; the wrapper's code never performs it. -/
inductive NativeCall
  /-- `_fontFile->Value->GetLoader(&fontFileLoader)` (line 113). -/
  | getLoader
  /-- `fontFileLoader->QueryInterface(...)` (line 117). -/
  | queryInterface
  /-- `_fontFile->Value->GetReferenceKey(...)` (lines 120 and 132). -/
  | getReferenceKey
  /-- `localFontFileLoader->GetFilePathLengthFromKey(...)` (line 137),
  recording the interface pointer it is invoked on. -/
  | getFilePathLengthFromKey (loaderPtr : Nat)
  /-- `localFontFileLoader->GetFilePathFromKey(...)` (line 148), recording
  the interface pointer and the buffer capacity argument. -/
  | getFilePathFromKey (loaderPtr : Nat) (capacity : Nat)
  /-- `new WCHAR[size]` (line 146), recording the allocated element count. -/
  | allocPathBuffer (size : Nat)
  /-- `delete [] fontFilePath` (line 162). -/
  | freePathBuffer
  /-- `(*ppInterface)->Release()` inside `ReleaseInterface` (line 183): the
  release of the reference acquired by the `QueryInterface` call. -/
  | releaseLocalFontFileLoader
  /-- A `Release` of the loader reference returned by `GetLoader`: present
  in the native API, never performed by this code. -/
  | releaseFontFileLoader
  /-- The release of the owned native font-file reference performed by the
  destructor's `delete _fontFile` (line 46). -/
  | releaseFontFile
  deriving DecidableEq, Repr

/-- Discriminator: is the event the release of the `QueryInterface`-acquired
local-loader reference? -/
def isReleaseLocal : NativeCall → Bool
  | NativeCall.releaseLocalFontFileLoader => true
  | _ => false

/-- Discriminator: is the event a release of the `GetLoader`-acquired loader
reference? -/
def isReleaseLoader : NativeCall → Bool
  | NativeCall.releaseFontFileLoader => true
  | _ => false

/-- Discriminator: is the event any `Release` of a native interface
reference? -/
def isReleaseEvent : NativeCall → Bool
  | NativeCall.releaseLocalFontFileLoader => true
  | NativeCall.releaseFontFileLoader => true
  | NativeCall.releaseFontFile => true
  | _ => false

/-- Discriminator: is the event the allocation of the native path buffer? -/
def isAllocEvent : NativeCall → Bool
  | NativeCall.allocPathBuffer _ => true
  | _ => false

/-- Discriminator: is the event the free of the native path buffer? -/
def isFreeEvent : NativeCall → Bool
  | NativeCall.freePathBuffer => true
  | _ => false

/-- Discriminator: is the event one of the two local-file-specific loader
operations (path-length query or path retrieval)? -/
def isLocalFileOp : NativeCall → Bool
  | NativeCall.getFilePathLengthFromKey _ => true
  | NativeCall.getFilePathFromKey _ _ => true
  | _ => false

/-- Environment for one run of `FontFile::GetUriPath`: the statuses and data
the native layer produces at each call site.  `GetReferenceKey` is invoked
on the same font file in both branches, so a single status/data pair models
it.  Wide characters are modelled as `Nat` code units; `0` is the null
terminator.  Pointers are `Nat` with `0` for NULL. -/
structure UriPathEnv where
  /-- Status of `GetLoader` (line 113). -/
  getLoaderHr : HRESULT
  /-- Status of `QueryInterface` for the local-file-loader GUID (line 117). -/
  qiHr : HRESULT
  /-- Interface pointer written by `QueryInterface` into
  `localFontFileLoaderInterfacePointer` (initialised NULL at line 116). -/
  qiOut : Nat
  /-- Status of `GetReferenceKey` (lines 120 / 132). -/
  getRefKeyHr : HRESULT
  /-- The memory at the reference-key pointer, viewed as WCHAR units. -/
  refKey : List Nat
  /-- The `UINT32` key size reported by `GetReferenceKey`. -/
  refKeySize : Nat
  /-- Status of `GetFilePathLengthFromKey` (line 137). -/
  pathLenHr : HRESULT
  /-- The value the native call writes into `sizeOfFilePath`; a `UINT32`,
  so the embedding reads it modulo `2^32`. -/
  pathLenRaw : Nat
  /-- Status of `GetFilePathFromKey` (line 148). -/
  pathHr : HRESULT
  /-- The path buffer's contents after a successful `GetFilePathFromKey`,
  viewed as WCHAR units. -/
  pathBuf : List Nat
  deriving DecidableEq, Repr

/-- Outcome of a `GetUriPath` run. -/
inductive UriOutcome
  /-- A `System::String` was returned, given as its WCHAR units. -/
  | ok (path : List Nat)
  /-- Modelled from the spec: `ConvertHresultToException` (not under `src/`)
  raises an exception carrying the failing status code and the context
  string passed at the call site; per the spec's failure policy, it raises
  exactly when the status denotes failure and is a no-op otherwise. -/
  | error (hr : HRESULT) (ctx : String)
  /-- Modelled from the spec: `MS::Internal::Invariant::Assert` (not under
  `src/`) treats a violated condition as a fatal, non-recoverable contract
  violation (spec section 7, ContractViolation), terminating execution
  rather than raising a catchable error, so no `finally` cleanup runs. -/
  | assertViolation
  deriving DecidableEq, Repr

/-- The context string `"System::String^ FontFile::GetUriPath"` passed to
`ConvertHresultToException` at all four call sites (lines 114, 122, 134,
142, 154). -/
def uriPathCtx : String := "System::String^ FontFile::GetUriPath"

/-- `gcnew System::String((WCHAR*)p)`: reading a native buffer as a
null-terminated wide string takes its code units up to (excluding) the
first `0`. -/
def readWString (buf : List Nat) : List Nat := buf.takeWhile (fun c => c ≠ 0)

/-- `FontFile::ReleaseInterface` (lines 179-186) on a non-null `ppInterface`
slot: releases the interface if the pointer is non-null and clears it,
otherwise does nothing.  Returns the new pointer value and the emitted
events. -/
def ReleaseInterface (pInterface : Nat) : Nat × List NativeCall :=
  if pInterface ≠ 0 then (0, [NativeCall.releaseLocalFontFileLoader])
  else (pInterface, [])

/-- The events of the `finally` block (lines 157-164): `ReleaseInterface` on
the local-loader slot, then `delete [] fontFilePath` if the buffer was
allocated. -/
def finallyEvents (localPtr : Nat) (allocated : Bool) : List NativeCall :=
  (ReleaseInterface localPtr).2 ++
    (if allocated then [NativeCall.freePathBuffer] else [])

/-- The result of one `GetUriPath` run: its outcome and the trace of native
calls and resource events in program order. -/
structure UriRun where
  outcome : UriOutcome
  trace : List NativeCall
  deriving DecidableEq, Repr

/-- `FontFile::GetUriPath` (lines 107-166), embedded over a live native
font-file reference.  Control flow from the source: `GetLoader`, raise on
failure; `QueryInterface` for the local-file-loader GUID; if the status is
exactly `E_NOINTERFACE`, fetch the reference key (raise on failure) and
return it read as a null-terminated wide string; otherwise enter the
local-file branch with the pointer `QueryInterface` wrote (the status is
not otherwise examined), fetch the reference key, query the path length,
assert `sizeOfFilePath >= 0 && sizeOfFilePath < UINT_MAX`, allocate
`sizeOfFilePath + 1` WCHARs, retrieve the path passing that full capacity,
and return the buffer read as a null-terminated wide string; the `finally`
block releases the local-loader slot and frees the buffer if allocated on
every raise or return of the branch. -/
def GetUriPath (env : UriPathEnv) : UriRun :=
  if FAILED env.getLoaderHr then
    { outcome := UriOutcome.error env.getLoaderHr uriPathCtx,
      trace := [NativeCall.getLoader] }
  else if env.qiHr = E_NOINTERFACE then
    if FAILED env.getRefKeyHr then
      { outcome := UriOutcome.error env.getRefKeyHr uriPathCtx,
        trace := [NativeCall.getLoader, NativeCall.queryInterface,
                  NativeCall.getReferenceKey] }
    else
      { outcome := UriOutcome.ok (readWString env.refKey),
        trace := [NativeCall.getLoader, NativeCall.queryInterface,
                  NativeCall.getReferenceKey] }
  else
    if FAILED env.getRefKeyHr then
      { outcome := UriOutcome.error env.getRefKeyHr uriPathCtx,
        trace := [NativeCall.getLoader, NativeCall.queryInterface,
                  NativeCall.getReferenceKey]
                 ++ finallyEvents env.qiOut false }
    else if FAILED env.pathLenHr then
      { outcome := UriOutcome.error env.pathLenHr uriPathCtx,
        trace := [NativeCall.getLoader, NativeCall.queryInterface,
                  NativeCall.getReferenceKey,
                  NativeCall.getFilePathLengthFromKey env.qiOut]
                 ++ finallyEvents env.qiOut false }
    else
      if 0 ≤ env.pathLenRaw % 4294967296 ∧ env.pathLenRaw % 4294967296 < UINT_MAX then
        if FAILED env.pathHr then
          { outcome := UriOutcome.error env.pathHr uriPathCtx,
            trace := [NativeCall.getLoader, NativeCall.queryInterface,
                      NativeCall.getReferenceKey,
                      NativeCall.getFilePathLengthFromKey env.qiOut,
                      NativeCall.allocPathBuffer (env.pathLenRaw % 4294967296 + 1),
                      NativeCall.getFilePathFromKey env.qiOut
                        (env.pathLenRaw % 4294967296 + 1)]
                     ++ finallyEvents env.qiOut true }
        else
          { outcome := UriOutcome.ok (readWString env.pathBuf),
            trace := [NativeCall.getLoader, NativeCall.queryInterface,
                      NativeCall.getReferenceKey,
                      NativeCall.getFilePathLengthFromKey env.qiOut,
                      NativeCall.allocPathBuffer (env.pathLenRaw % 4294967296 + 1),
                      NativeCall.getFilePathFromKey env.qiOut
                        (env.pathLenRaw % 4294967296 + 1)]
                     ++ finallyEvents env.qiOut true }
      else
        { outcome := UriOutcome.assertViolation,
          trace := [NativeCall.getLoader, NativeCall.queryInterface,
                    NativeCall.getReferenceKey,
                    NativeCall.getFilePathLengthFromKey env.qiOut] }

/-- Environment for one run of `FontFile::Analyze`: the status and output
data of the single native `Analyze` call (lines 67-72).  `isSupported` is
the native `BOOL` (an integer; nonzero means supported). -/
structure AnalyzeEnv where
  hr : HRESULT
  isSupported : Int
  fileType : Nat
  faceType : Nat
  numberOfFaces : Nat
  deriving DecidableEq, Repr

/-- The three caller-held variables bound to `Analyze`'s `[Out]` reference
parameters; passing them in and returning them models population versus
leaving them untouched. -/
structure AnalyzeOuts where
  fontFileType : Nat
  fontFaceType : Nat
  numberOfFaces : Nat
  deriving DecidableEq, Repr

/-- What `FontFile::Analyze` gives back to its caller: the boolean return
value, the by-reference `HRESULT`, and the `[Out]` parameters' values. -/
structure AnalyzeResult where
  ret : Bool
  hrOut : HRESULT
  outs : AnalyzeOuts
  deriving DecidableEq, Repr

/-- The `[Out]` values `Analyze` assigns on the success path
(lines 80-82): the classification data the native call produced. -/
def analyzePopulatedOuts (env : AnalyzeEnv) : AnalyzeOuts :=
  { fontFileType := env.fileType
    fontFaceType := env.faceType
    numberOfFaces := env.numberOfFaces }

/-- `FontFile::Analyze` (lines 56-84), embedded over a live native
reference: perform the native call; if `FAILED(hr)` return `false` leaving
the `[Out]` parameters untouched; otherwise assign all three `[Out]`
parameters and return `!!isSupported`.  The by-reference `hr` always holds
the raw native status.  The method has no raising path. -/
def Analyze (env : AnalyzeEnv) (outs0 : AnalyzeOuts) : AnalyzeResult :=
  if FAILED env.hr then
    { ret := false, hrOut := env.hr, outs := outs0 }
  else
    { ret := env.isSupported ≠ 0, hrOut := env.hr,
      outs := analyzePopulatedOuts env }

/-- The wrapper's `_fontFile` field: `some p` models a live
`NativeIUnknownWrapper` holding native pointer `p`; `none` models the field
after the destructor cleared it. -/
abbrev FontFileState := Option Nat

/-- The constructor `FontFile(IDWriteFontFile*)` (lines 32-35): wrap the
caller-supplied native pointer. -/
def FontFileConstruct (p : Nat) : FontFileState := some p

/-- The destructor `FontFile::~FontFile` (lines 42-49): if `_fontFile` is
non-null, `delete` it (releasing the owned native reference) and null the
field; otherwise do nothing.  Returns the new field value and the emitted
events; the body contains no raising operation. -/
def FontFileDispose (s : FontFileState) : FontFileState × List NativeCall :=
  match s with
  | some _ => (none, [NativeCall.releaseFontFile])
  | none => (none, [])

/-- Result of invoking a method through the managed `_fontFile` field:
evaluating `_fontFile->Value` on a null field makes the managed runtime
fail fast with a null-reference fault before any native call; on a live
field the method body runs. -/
inductive Managed (α : Type)
  | nullRef
  | ran (value : α)
  deriving DecidableEq

/-- `FontFile::Analyze` as invoked on the wrapper: the dereference
`_fontFile->Value` (line 67) is guarded by the managed null check, so a
disposed wrapper faults before the native call. -/
def AnalyzeOn (s : FontFileState) (env : AnalyzeEnv) (outs0 : AnalyzeOuts) :
    Managed AnalyzeResult :=
  match s with
  | none => Managed.nullRef
  | some _ => Managed.ran (Analyze env outs0)

/-- `FontFile::GetUriPath` as invoked on the wrapper: the dereference
`_fontFile->Value` (line 113) is guarded by the managed null check, so a
disposed wrapper faults before any native call. -/
def GetUriPathOn (s : FontFileState) (env : UriPathEnv) : Managed UriRun :=
  match s with
  | none => Managed.nullRef
  | some _ => Managed.ran (GetUriPath env)

/-- `FontFile::DWriteFontFileNoAddRef::get` (lines 94-97): return
`_fontFile->Value`, the raw native pointer; the dereference is guarded by
the managed null check. -/
def DWriteFontFileNoAddRef (s : FontFileState) : Managed Nat :=
  match s with
  | none => Managed.nullRef
  | some p => Managed.ran p

/-- Concrete run: `GetLoader` itself fails with status `-1`. -/
def envLoaderFail : UriPathEnv :=
  { getLoaderHr := -1, qiHr := S_OK, qiOut := 1, getRefKeyHr := S_OK,
    refKey := [], refKeySize := 0, pathLenHr := S_OK, pathLenRaw := 0,
    pathHr := S_OK, pathBuf := [] }

/-- Concrete run: loader retrieval succeeds, the capability query reports
`E_NOINTERFACE`, and the reference-key retrieval fails with status `-1`. -/
def envKeyFail : UriPathEnv :=
  { getLoaderHr := S_OK, qiHr := E_NOINTERFACE, qiOut := 0,
    getRefKeyHr := -1, refKey := [], refKeySize := 0, pathLenHr := S_OK,
    pathLenRaw := 0, pathHr := S_OK, pathBuf := [] }

/-- Concrete run: the capability query fails with `E_FAIL` (not
`E_NOINTERFACE`), leaving its output pointer NULL; every other call
succeeds. -/
def envQiFail : UriPathEnv :=
  { getLoaderHr := S_OK, qiHr := E_FAIL, qiOut := 0, getRefKeyHr := S_OK,
    refKey := [], refKeySize := 0, pathLenHr := S_OK, pathLenRaw := 2,
    pathHr := S_OK, pathBuf := [65, 66, 0] }

/-- Concrete run: the fallback branch succeeds; the reference key holds the
WCHAR units `72, 105`, a null terminator, then trailing bytes. -/
def envFallbackOk : UriPathEnv :=
  { getLoaderHr := S_OK, qiHr := E_NOINTERFACE, qiOut := 0,
    getRefKeyHr := S_OK, refKey := [72, 105, 0, 66], refKeySize := 8,
    pathLenHr := S_OK, pathLenRaw := 0, pathHr := S_OK, pathBuf := [] }

/-- Concrete run: the local-file branch succeeds with a reported path
length of `2` and buffer contents `65, 66`, null, then a stale cell. -/
def envLocalOk : UriPathEnv :=
  { getLoaderHr := S_OK, qiHr := S_OK, qiOut := 5, getRefKeyHr := S_OK,
    refKey := [1, 2], refKeySize := 4, pathLenHr := S_OK, pathLenRaw := 2,
    pathHr := S_OK, pathBuf := [65, 66, 0, 99] }

/-- Concrete run: the local-file branch reaches the invariant check with a
reported path length of `UINT_MAX`. -/
def envAssertFail : UriPathEnv :=
  { getLoaderHr := S_OK, qiHr := S_OK, qiOut := 5, getRefKeyHr := S_OK,
    refKey := [1, 2], refKeySize := 4, pathLenHr := S_OK,
    pathLenRaw := 4294967295, pathHr := S_OK, pathBuf := [] }

/-- Concrete run: the local-file branch fails at the path-length query with
status `-3`. -/
def envPathLenFail : UriPathEnv :=
  { getLoaderHr := S_OK, qiHr := S_OK, qiOut := 5, getRefKeyHr := S_OK,
    refKey := [1, 2], refKeySize := 4, pathLenHr := -3, pathLenRaw := 0,
    pathHr := S_OK, pathBuf := [] }

/-- Claim C5: if the native analyze call fails, `Analyze` leaves the three
output classification fields untouched, returns `false`, and still hands
the raw status to the caller (the method has no raising path); if the
native call succeeds but reports the format unsupported, `Analyze`
populates the output fields, returns `false`, and reports the successful
status. -/
theorem C5_analyze_failure_policy (env : AnalyzeEnv) (outs0 : AnalyzeOuts) :
    (FAILED env.hr = true →
      Analyze env outs0 = { ret := false, hrOut := env.hr, outs := outs0 }) ∧
    (FAILED env.hr = false → env.isSupported = 0 →
      Analyze env outs0 =
        { ret := false, hrOut := env.hr, outs := analyzePopulatedOuts env }) := by
  constructor
  · intro h
    simp [Analyze, h]
  · intro h h0
    simp [Analyze, h, h0]

/-- Witness for C5: a concrete failing run and a concrete
successful-but-unsupported run. -/
theorem C5_analyze_failure_policy_witness :
    Analyze { hr := -5, isSupported := 1, fileType := 2, faceType := 3,
              numberOfFaces := 1 }
        { fontFileType := 9, fontFaceType := 9, numberOfFaces := 9 } =
      { ret := false, hrOut := -5,
        outs := { fontFileType := 9, fontFaceType := 9, numberOfFaces := 9 } } ∧
    Analyze { hr := 0, isSupported := 0, fileType := 2, faceType := 3,
              numberOfFaces := 1 }
        { fontFileType := 9, fontFaceType := 9, numberOfFaces := 9 } =
      { ret := false, hrOut := 0,
        outs := { fontFileType := 2, fontFaceType := 3, numberOfFaces := 1 } } :=
  ⟨(C5_analyze_failure_policy
      { hr := -5, isSupported := 1, fileType := 2, faceType := 3,
        numberOfFaces := 1 }
      { fontFileType := 9, fontFaceType := 9, numberOfFaces := 9 }).1
      (by decide),
   (C5_analyze_failure_policy
      { hr := 0, isSupported := 0, fileType := 2, faceType := 3,
        numberOfFaces := 1 }
      { fontFileType := 9, fontFaceType := 9, numberOfFaces := 9 }).2
      (by decide) (by decide)⟩

/-- Claim C9: `Analyze`'s boolean return is `true` iff the native status
succeeded and the native `isSupported` flag is nonzero; a `false` return
alone does not separate native failure from successful-but-unsupported
analysis — two concrete runs below both return `false` and are told apart
only by the by-reference status. -/
theorem C9_analyze_return_iff (env : AnalyzeEnv) (outs0 : AnalyzeOuts) :
    ((Analyze env outs0).ret = true ↔
      (FAILED env.hr = false ∧ env.isSupported ≠ 0)) ∧
    (Analyze { hr := E_FAIL, isSupported := 1, fileType := 0, faceType := 0,
               numberOfFaces := 0 } outs0).ret = false ∧
    (Analyze { hr := S_OK, isSupported := 0, fileType := 0, faceType := 0,
               numberOfFaces := 0 } outs0).ret = false ∧
    FAILED E_FAIL = true ∧
    FAILED S_OK = false := by
  refine ⟨?_, by simp [Analyze, FAILED, E_FAIL], by simp [Analyze, FAILED, S_OK],
    by decide, by decide⟩
  cases h : FAILED env.hr
  · simp [Analyze, h]
  · simp [Analyze, h]

/-- Witness for C9: the equivalence instantiated at a concrete
successful, supported run. -/
theorem C9_analyze_return_iff_witness :
    (Analyze { hr := 0, isSupported := 1, fileType := 1, faceType := 1,
               numberOfFaces := 4 }
        { fontFileType := 0, fontFaceType := 0, numberOfFaces := 0 }).ret = true :=
  (C9_analyze_return_iff
    { hr := 0, isSupported := 1, fileType := 1, faceType := 1,
      numberOfFaces := 4 }
    { fontFileType := 0, fontFaceType := 0, numberOfFaces := 0 }).1.mpr
    ⟨by decide, by decide⟩

/-- Claim C7: every operation that dereferences the handle's native
reference (`Analyze`, `GetUriPath`, the raw-reference accessor) is guarded
by the non-null check on the managed field, so after disposal each faults
fast with a null-reference outcome and performs no native call, while on a
live handle the body runs. -/
theorem C7_null_check_before_dereference (s : FontFileState) (p : Nat)
    (env : UriPathEnv) (aenv : AnalyzeEnv) (outs0 : AnalyzeOuts) :
    AnalyzeOn none aenv outs0 = Managed.nullRef ∧
    GetUriPathOn none env = Managed.nullRef ∧
    DWriteFontFileNoAddRef none = Managed.nullRef ∧
    AnalyzeOn (FontFileDispose s).1 aenv outs0 = Managed.nullRef ∧
    GetUriPathOn (FontFileDispose s).1 env = Managed.nullRef ∧
    DWriteFontFileNoAddRef (FontFileDispose s).1 = Managed.nullRef ∧
    AnalyzeOn (FontFileConstruct p) aenv outs0 =
      Managed.ran (Analyze aenv outs0) ∧
    GetUriPathOn (FontFileConstruct p) env = Managed.ran (GetUriPath env) ∧
    DWriteFontFileNoAddRef (FontFileConstruct p) = Managed.ran p := by
  cases s <;>
    simp [AnalyzeOn, GetUriPathOn, DWriteFontFileNoAddRef, FontFileDispose,
      FontFileConstruct]

/-- Claim C8: disposing a constructed handle releases the owned native
reference and clears the field; a second disposal starts from the cleared
field, is a no-op, and emits nothing, so both disposals together perform
exactly one native release; disposal has no other effect (its whole event
list is that single release) and no raising path. -/
theorem C8_dispose_idempotent (s : FontFileState) (p : Nat) :
    FontFileDispose (FontFileConstruct p) =
      (none, [NativeCall.releaseFontFile]) ∧
    FontFileDispose (FontFileDispose s).1 = (none, []) ∧
    ((FontFileDispose (FontFileConstruct p)).2 ++
        (FontFileDispose (FontFileDispose (FontFileConstruct p)).1).2).countP
      isReleaseEvent = 1 := by
  cases s <;> exact ⟨rfl, rfl, rfl⟩

/-- Claim C2: when the capability query reports `E_NOINTERFACE` (and the
calls actually reached — loader retrieval and reference-key retrieval —
succeed), `GetUriPath` returns the reference key read as a null-terminated
wide string, raises nothing, and its trace contains neither local-file
operation (path-length query or path retrieval) and no release. -/
theorem C2_fallback_returns_reference_key (env : UriPathEnv)
    (hLoad : FAILED env.getLoaderHr = false)
    (hQi : env.qiHr = E_NOINTERFACE)
    (hKey : FAILED env.getRefKeyHr = false) :
    (GetUriPath env).outcome = UriOutcome.ok (readWString env.refKey) ∧
    (GetUriPath env).trace =
      [NativeCall.getLoader, NativeCall.queryInterface,
       NativeCall.getReferenceKey] ∧
    (GetUriPath env).trace.countP isLocalFileOp = 0 ∧
    (GetUriPath env).trace.countP isReleaseEvent = 0 := by
  simp [GetUriPath, hLoad, hQi, hKey, isLocalFileOp, isReleaseEvent,
    List.countP_cons, List.countP_nil]

/-- Witness for C2: the concrete fallback run `envFallbackOk` returns the
key text `72, 105` (the units before the terminator). -/
theorem C2_fallback_returns_reference_key_witness :
    (GetUriPath envFallbackOk).outcome =
      UriOutcome.ok (readWString envFallbackOk.refKey) ∧
    (GetUriPath envFallbackOk).trace =
      [NativeCall.getLoader, NativeCall.queryInterface,
       NativeCall.getReferenceKey] ∧
    (GetUriPath envFallbackOk).trace.countP isLocalFileOp = 0 ∧
    (GetUriPath envFallbackOk).trace.countP isReleaseEvent = 0 :=
  C2_fallback_returns_reference_key envFallbackOk (by decide) (by decide)
    (by decide)

/-- Claim C10: no execution of `GetUriPath` ever releases the loader
reference obtained from `GetLoader`; every interface release in any trace
is the release of the `QueryInterface`-acquired local-file interface. -/
theorem C10_getloader_reference_never_released (env : UriPathEnv) :
    (GetUriPath env).trace.countP isReleaseLoader = 0 ∧
    ((GetUriPath env).trace.filter isReleaseEvent).all isReleaseLocal = true := by
  unfold GetUriPath
  split
  · simp [isReleaseLoader, isReleaseEvent, isReleaseLocal]
  · split
    · split <;>
        simp [isReleaseLoader, isReleaseEvent, isReleaseLocal]
    · split
      · simp [finallyEvents, ReleaseInterface, isReleaseLoader,
          isReleaseEvent, isReleaseLocal]
        split <;> simp [isReleaseLoader, isReleaseEvent, isReleaseLocal]
      · split
        · simp [finallyEvents, ReleaseInterface, isReleaseLoader,
            isReleaseEvent, isReleaseLocal]
          split <;> simp [isReleaseLoader, isReleaseEvent, isReleaseLocal]
        · split
          · split <;>
              · simp [finallyEvents, ReleaseInterface, isReleaseLoader,
                  isReleaseEvent, isReleaseLocal]
                split <;>
                  simp [isReleaseLoader, isReleaseEvent, isReleaseLocal]
          · simp [isReleaseLoader, isReleaseEvent, isReleaseLocal]

/-- Claim C1, counterexample: the claim as stated is false on this code.
First, the error raised does not identify which operation failed: the run
`envLoaderFail` fails at loader retrieval and the run `envKeyFail` fails at
reference-key retrieval, with distinct failing operations, yet both raise
the identical error (same status `-1`, same context string, which names
only the method `GetUriPath`).  Second, a capability-query status that is
failing but not `E_NOINTERFACE` (run `envQiFail`, status `E_FAIL`) does not
abort: the path-length step still executes, on the NULL interface pointer
produced by the failed query. -/
theorem C1_counterexample :
    (GetUriPath envLoaderFail).outcome = UriOutcome.error (-1) uriPathCtx ∧
    (GetUriPath envKeyFail).outcome = UriOutcome.error (-1) uriPathCtx ∧
    (GetUriPath envLoaderFail).outcome = (GetUriPath envKeyFail).outcome ∧
    FAILED envLoaderFail.getLoaderHr = true ∧
    FAILED envKeyFail.getLoaderHr = false ∧
    envKeyFail.qiHr = E_NOINTERFACE ∧
    FAILED envKeyFail.getRefKeyHr = true ∧
    FAILED envQiFail.qiHr = true ∧
    envQiFail.qiHr ≠ E_NOINTERFACE ∧
    envQiFail.qiOut = 0 ∧
    NativeCall.getFilePathLengthFromKey 0 ∈ (GetUriPath envQiFail).trace := by
  decide

/-- Claim C1 as amended: any failing status at whichever of the four
protocol steps is reached aborts the remaining steps and raises an error
carrying that status code and a fixed context naming only the method
(`GetUriPath`) — the same context for all four steps, so the error does not
distinguish which step failed; an `E_NOINTERFACE` capability-query outcome
selects the fallback branch and is never raised; but a failing
capability-query status other than `E_NOINTERFACE` is not checked, and
execution continues into the local-file branch using the query's output
pointer. -/
theorem C1_amended_failure_policy (env : UriPathEnv) :
    (FAILED env.getLoaderHr = true →
      (GetUriPath env).outcome = UriOutcome.error env.getLoaderHr uriPathCtx ∧
      (GetUriPath env).trace = [NativeCall.getLoader]) ∧
    (FAILED env.getLoaderHr = false → env.qiHr = E_NOINTERFACE →
      FAILED env.getRefKeyHr = true →
      (GetUriPath env).outcome = UriOutcome.error env.getRefKeyHr uriPathCtx ∧
      (GetUriPath env).trace =
        [NativeCall.getLoader, NativeCall.queryInterface,
         NativeCall.getReferenceKey]) ∧
    (FAILED env.getLoaderHr = false → env.qiHr = E_NOINTERFACE →
      FAILED env.getRefKeyHr = false →
      (GetUriPath env).outcome = UriOutcome.ok (readWString env.refKey)) ∧
    (FAILED env.getLoaderHr = false → env.qiHr ≠ E_NOINTERFACE →
      FAILED env.getRefKeyHr = true →
      (GetUriPath env).outcome = UriOutcome.error env.getRefKeyHr uriPathCtx ∧
      (GetUriPath env).trace =
        [NativeCall.getLoader, NativeCall.queryInterface,
         NativeCall.getReferenceKey] ++ finallyEvents env.qiOut false ∧
      (GetUriPath env).trace.countP isLocalFileOp = 0) ∧
    (FAILED env.getLoaderHr = false → env.qiHr ≠ E_NOINTERFACE →
      FAILED env.getRefKeyHr = false → FAILED env.pathLenHr = true →
      (GetUriPath env).outcome = UriOutcome.error env.pathLenHr uriPathCtx ∧
      (GetUriPath env).trace =
        [NativeCall.getLoader, NativeCall.queryInterface,
         NativeCall.getReferenceKey,
         NativeCall.getFilePathLengthFromKey env.qiOut] ++
          finallyEvents env.qiOut false) ∧
    (FAILED env.getLoaderHr = false → env.qiHr ≠ E_NOINTERFACE →
      FAILED env.getRefKeyHr = false → FAILED env.pathLenHr = false →
      env.pathLenRaw % 4294967296 < UINT_MAX → FAILED env.pathHr = true →
      (GetUriPath env).outcome = UriOutcome.error env.pathHr uriPathCtx) ∧
    (FAILED env.getLoaderHr = false → FAILED env.qiHr = true →
      env.qiHr ≠ E_NOINTERFACE → FAILED env.getRefKeyHr = false →
      NativeCall.getFilePathLengthFromKey env.qiOut ∈ (GetUriPath env).trace) := by
  refine ⟨?_, ?_, ?_, ?_, ?_, ?_, ?_⟩
  · intro h1
    simp [GetUriPath, h1]
  · intro h1 h2 h3
    simp [GetUriPath, h1, h2, h3]
  · intro h1 h2 h3
    simp [GetUriPath, h1, h2, h3]
  · intro h1 h2 h3
    simp [GetUriPath, h1, h2, h3, isLocalFileOp, finallyEvents,
      ReleaseInterface, List.countP_cons, List.countP_nil, List.countP_append]
    split <;> simp [isLocalFileOp]
  · intro h1 h2 h3 h4
    simp [GetUriPath, h1, h2, h3, h4]
  · intro h1 h2 h3 h4 h5 h6
    simp [GetUriPath, h1, h2, h3, h4, h5, h6]
  · intro h1 h2 h3 h4
    by_cases h5 : FAILED env.pathLenHr = true
    · simp [GetUriPath, h1, h2, h3, h4, h5]
    · rw [Bool.not_eq_true] at h5
      by_cases h6 : env.pathLenRaw % 4294967296 < UINT_MAX
      · by_cases h7 : FAILED env.pathHr = true
        · simp [GetUriPath, h1, h2, h3, h4, h5, h6, h7]
        · rw [Bool.not_eq_true] at h7
          simp [GetUriPath, h1, h2, h3, h4, h5, h6, h7]
      · simp [GetUriPath, h1, h2, h3, h4, h5, h6]

/-- Witness for the amended C1: on the concrete run `envPathLenFail`, the
path-length query is the reached failing step, the run raises the error
with status `-3` and the method-naming context, and aborts before the path
retrieval (the trace ends with the cleanup of the local-loader slot). -/
theorem C1_amended_failure_policy_witness :
    (GetUriPath envPathLenFail).outcome = UriOutcome.error (-3) uriPathCtx ∧
    (GetUriPath envPathLenFail).trace =
      [NativeCall.getLoader, NativeCall.queryInterface,
       NativeCall.getReferenceKey,
       NativeCall.getFilePathLengthFromKey envPathLenFail.qiOut] ++
        finallyEvents envPathLenFail.qiOut false :=
  (C1_amended_failure_policy envPathLenFail).2.2.2.2.1 (by decide) (by decide)
    (by decide) (by decide)

/-- Claim C3: on every non-fatal exit of `GetUriPath`'s local-file branch —
return or raised error — the interface obtained by the capability query is
released exactly once, the path buffer is freed exactly once if (and only
if) it was allocated, and the release helper is a no-op on a null slot and
clears a non-null slot after releasing. -/
theorem C3_cleanup_on_every_exit (env : UriPathEnv)
    (hLoad : FAILED env.getLoaderHr = false)
    (hQi : env.qiHr ≠ E_NOINTERFACE)
    (hPtr : env.qiOut ≠ 0)
    (hNF : (GetUriPath env).outcome ≠ UriOutcome.assertViolation) :
    (GetUriPath env).trace.countP isReleaseLocal = 1 ∧
    (GetUriPath env).trace.countP isAllocEvent =
      (GetUriPath env).trace.countP isFreeEvent ∧
    (GetUriPath env).trace.countP isFreeEvent ≤ 1 ∧
    ReleaseInterface 0 = (0, []) ∧
    (∀ q : Nat, q ≠ 0 →
      ReleaseInterface q = (0, [NativeCall.releaseLocalFontFileLoader])) := by
  have hRI0 : ReleaseInterface 0 = (0, []) := by decide
  have hRIq : ∀ q : Nat, q ≠ 0 →
      ReleaseInterface q = (0, [NativeCall.releaseLocalFontFileLoader]) := by
    intro q hq
    simp [ReleaseInterface, hq]
  by_cases hK : FAILED env.getRefKeyHr = true
  · refine ⟨?_, ?_, ?_, hRI0, hRIq⟩ <;>
      simp [GetUriPath, hLoad, hQi, hK, finallyEvents, ReleaseInterface, hPtr,
        isReleaseLocal, isAllocEvent, isFreeEvent, List.countP_cons,
        List.countP_nil, List.countP_append]
  · rw [Bool.not_eq_true] at hK
    by_cases hL : FAILED env.pathLenHr = true
    · refine ⟨?_, ?_, ?_, hRI0, hRIq⟩ <;>
        simp [GetUriPath, hLoad, hQi, hK, hL, finallyEvents, ReleaseInterface,
          hPtr, isReleaseLocal, isAllocEvent, isFreeEvent, List.countP_cons,
          List.countP_nil, List.countP_append]
    · rw [Bool.not_eq_true] at hL
      by_cases hA : env.pathLenRaw % 4294967296 < UINT_MAX
      · by_cases hP : FAILED env.pathHr = true
        · refine ⟨?_, ?_, ?_, hRI0, hRIq⟩ <;>
            simp [GetUriPath, hLoad, hQi, hK, hL, hA, hP, finallyEvents,
              ReleaseInterface, hPtr, isReleaseLocal, isAllocEvent,
              isFreeEvent, List.countP_cons, List.countP_nil,
              List.countP_append]
        · rw [Bool.not_eq_true] at hP
          refine ⟨?_, ?_, ?_, hRI0, hRIq⟩ <;>
            simp [GetUriPath, hLoad, hQi, hK, hL, hA, hP, finallyEvents,
              ReleaseInterface, hPtr, isReleaseLocal, isAllocEvent,
              isFreeEvent, List.countP_cons, List.countP_nil,
              List.countP_append]
      · exfalso
        apply hNF
        simp [GetUriPath, hLoad, hQi, hK, hL, hA]

/-- Witness for C3: the concrete successful local-file run `envLocalOk`
releases the queried interface once and frees the one allocated buffer
once. -/
theorem C3_cleanup_on_every_exit_witness :
    (GetUriPath envLocalOk).trace.countP isReleaseLocal = 1 ∧
    (GetUriPath envLocalOk).trace.countP isAllocEvent =
      (GetUriPath envLocalOk).trace.countP isFreeEvent ∧
    (GetUriPath envLocalOk).trace.countP isFreeEvent ≤ 1 ∧
    ReleaseInterface 0 = (0, []) ∧
    (∀ q : Nat, q ≠ 0 →
      ReleaseInterface q = (0, [NativeCall.releaseLocalFontFileLoader])) :=
  C3_cleanup_on_every_exit envLocalOk (by decide) (by decide) (by decide)
    (by decide)

/-- Claim C6: once the local-file branch has a successfully reported path
length, the invariant check `sizeOfFilePath >= 0 && sizeOfFilePath <
UINT_MAX` on the `UINT32` value fires exactly for the value `UINT_MAX`
(`2^32 - 1`), so some values are genuinely rejected, and a violation is the
fatal assertion outcome, distinct from every raised recoverable error and
from every return. -/
theorem C6_pathlen_invariant_guard (env : UriPathEnv)
    (hLoad : FAILED env.getLoaderHr = false)
    (hQi : env.qiHr ≠ E_NOINTERFACE)
    (hKey : FAILED env.getRefKeyHr = false)
    (hLen : FAILED env.pathLenHr = false) :
    ((GetUriPath env).outcome = UriOutcome.assertViolation ↔
      env.pathLenRaw % 4294967296 = UINT_MAX) ∧
    (∀ hr ctx, UriOutcome.assertViolation ≠ UriOutcome.error hr ctx) ∧
    (∀ s, UriOutcome.assertViolation ≠ UriOutcome.ok s) := by
  have hmod : env.pathLenRaw % 4294967296 < 4294967296 :=
    Nat.mod_lt _ (by decide)
  refine ⟨?_, fun hr ctx h => UriOutcome.noConfusion h,
    fun s h => UriOutcome.noConfusion h⟩
  by_cases hA : env.pathLenRaw % 4294967296 < UINT_MAX
  · constructor
    · intro h
      exfalso
      by_cases hP : FAILED env.pathHr = true
      · simp [GetUriPath, hLoad, hQi, hKey, hLen, hA, hP] at h
      · rw [Bool.not_eq_true] at hP
        simp [GetUriPath, hLoad, hQi, hKey, hLen, hA, hP] at h
    · intro h
      exact absurd h (Nat.ne_of_lt hA)
  · constructor
    · intro _
      simp only [UINT_MAX] at hA ⊢
      omega
    · intro _
      simp [GetUriPath, hLoad, hQi, hKey, hLen, hA]

/-- Witness for C6: on the concrete run `envAssertFail`, whose reported
path length is `UINT_MAX`, `GetUriPath` ends in the fatal assertion
outcome. -/
theorem C6_pathlen_invariant_guard_witness :
    (GetUriPath envAssertFail).outcome = UriOutcome.assertViolation :=
  (C6_pathlen_invariant_guard envAssertFail (by decide) (by decide)
      (by decide) (by decide)).1.mpr (by decide)

/-- Reading a buffer made of a null-free prefix `p`, a null terminator,
then arbitrary residue as a null-terminated wide string yields exactly
`p`. -/
theorem readWString_of_terminated (p rest : List Nat) (hp : ∀ c ∈ p, c ≠ 0) :
    readWString (p ++ 0 :: rest) = p := by
  induction p with
  | nil => simp [readWString]
  | cons a l ih =>
      have ha : a ≠ 0 := hp a (List.mem_cons_self a l)
      have hl : ∀ c ∈ l, c ≠ 0 := fun c hc => hp c (List.mem_cons_of_mem a hc)
      have ihl := ih hl
      simp only [readWString] at ihl ⊢
      simp [List.takeWhile_cons, ha]
      simpa using ihl

/-- Claim C4: in a successful local-file resolution, the buffer is
allocated with exactly the reported length plus one, that full capacity is
the capacity argument of the path-retrieval call, and — given that the
native loader wrote a null-terminated string of exactly the reported
length into the buffer — the returned string's length equals the reported
length. -/
theorem C4_local_length_roundtrip (env : UriPathEnv) (p rest : List Nat)
    (hLoad : FAILED env.getLoaderHr = false)
    (hQi : env.qiHr ≠ E_NOINTERFACE)
    (hKey : FAILED env.getRefKeyHr = false)
    (hLen : FAILED env.pathLenHr = false)
    (hA : env.pathLenRaw % 4294967296 < UINT_MAX)
    (hPath : FAILED env.pathHr = false)
    (hBuf : env.pathBuf = p ++ 0 :: rest)
    (hp : ∀ c ∈ p, c ≠ 0)
    (hplen : p.length = env.pathLenRaw % 4294967296) :
    NativeCall.allocPathBuffer (env.pathLenRaw % 4294967296 + 1) ∈
      (GetUriPath env).trace ∧
    NativeCall.getFilePathFromKey env.qiOut
      (env.pathLenRaw % 4294967296 + 1) ∈ (GetUriPath env).trace ∧
    (GetUriPath env).outcome = UriOutcome.ok (readWString env.pathBuf) ∧
    (readWString env.pathBuf).length = env.pathLenRaw % 4294967296 := by
  have hread : readWString env.pathBuf = p := by
    rw [hBuf]
    exact readWString_of_terminated p rest hp
  refine ⟨?_, ?_, ?_, ?_⟩
  · simp [GetUriPath, hLoad, hQi, hKey, hLen, hA, hPath, finallyEvents,
      ReleaseInterface]
  · simp [GetUriPath, hLoad, hQi, hKey, hLen, hA, hPath, finallyEvents,
      ReleaseInterface]
  · simp [GetUriPath, hLoad, hQi, hKey, hLen, hA, hPath]
  · rw [hread]
    exact hplen

/-- Witness for C4: the concrete run `envLocalOk` (reported length `2`,
buffer `65, 66, 0, 99`) allocates `3` WCHARs, passes capacity `3`, and
returns the two-character string. -/
theorem C4_local_length_roundtrip_witness :
    NativeCall.allocPathBuffer 3 ∈ (GetUriPath envLocalOk).trace ∧
    NativeCall.getFilePathFromKey 5 3 ∈ (GetUriPath envLocalOk).trace ∧
    (GetUriPath envLocalOk).outcome =
      UriOutcome.ok (readWString envLocalOk.pathBuf) ∧
    (readWString envLocalOk.pathBuf).length = 2 :=
  C4_local_length_roundtrip envLocalOk [65, 66] [99] (by decide) (by decide)
    (by decide) (by decide) (by decide) (by decide) (by decide) (by decide)
    (by decide)
